import Mathlib

/-!
# BLIS front ends: scalv dispatch, abmaxv front ends, BLAS-compatible dot

A shallow embedding of

* `frame/1/scalv/bli_scalv_int.c`  (control-tree dispatch of vector scaling),
* `frame/util/abmaxv/bli_abmaxv.c` (object and typed front ends of abmaxv),
* `frame/compat/bla_dot.c`         (BLAS-compatible dot, sdsdot, dsdot),

together with the properties of these routines.

Conventions of the embedding.

* An object passed by pointer (`obj_t*`) is an in/out value: the routine
  receives the object and the outcome carries the object as the routine
  leaves it.
* Every call a front end makes to a collaborator (check routine, variant,
  kernel) is appended to a call log carried by the outcome, so that call
  counts can be read off.
* Integers are unbounded; buffer contents are exact integers.
-/

namespace Blis

/-! ## Common types -/

/-- Error codes (`err_t`) that occur in the embedded routines. -/
inductive err_t
  | BLIS_SUCCESS
  | BLIS_FAILURE
  | BLIS_NOT_YET_IMPLEMENTED
  | other (code : Int)
deriving DecidableEq, Repr

/-- Modelled from the spec: the type `obj_t` is declared outside the embedded
files. An Operand View carries its dimensions (m, n) and its buffer; strides,
datatype tag and attribute flags play no part in the embedded routines. -/
structure obj_t where
  m : Nat
  n : Nat
  buffer : List Int
deriving DecidableEq, Repr

/-- Modelled from the spec: `bli_obj_has_zero_dim` is defined outside the
embedded files; the zero-dimension flag is derived from (m==0 or n==0). -/
def bli_obj_has_zero_dim (x : obj_t) : Bool :=
  x.m == 0 || x.n == 0

/-- Modelled from the spec: the global constant `BLIS_ONE`, the multiplicative
identity 1 held as a scalar object. -/
def BLIS_ONE : obj_t := { m := 1, n := 1, buffer := [1] }

/-- Modelled from the spec: `bli_obj_equals` is defined outside the embedded
files; a scalar attachment is compared against a well-known constant by
value. The value of a scalar object is the first element of its buffer. -/
def bli_obj_equals (a b : obj_t) : Bool :=
  a.buffer.head? == b.buffer.head?

/-- Ways in which a call of an embedded routine can end. `returned` is the
normal return. `aborted` is the fatal report of an error code by a check
routine. `null_call` and `out_of_range` are the two undefined behaviours the
dispatch code can reach: a call through a NULL function pointer and an index
outside the bounds of the dispatch table. Each carries the machine state at
that point. -/
inductive Outcome (σ : Type)
  | returned (s : σ)
  | aborted (e : err_t) (s : σ)
  | null_call (s : σ)
  | out_of_range (s : σ)
deriving DecidableEq, Repr

/-- Machine state carried by an outcome. -/
def Outcome.state {σ : Type} : Outcome σ → σ
  | .returned s => s
  | .aborted _ s => s
  | .null_call s => s
  | .out_of_range s => s

/-- True exactly when the call ended in the fatal report of an error code. -/
def Outcome.is_aborted {σ : Type} : Outcome σ → Bool
  | .aborted _ _ => true
  | _ => false

/-! ## scalv: `bli_scalv_int` -/

/-- Modelled from the spec: `impl_t` is declared outside the embedded files;
implementation kind ∈ {reference-unblocked, optimized-unblocked, blocked},
in the column order of the dispatch table. -/
inductive impl_t
  | BLIS_UNBLOCKED
  | BLIS_UNB_OPT
  | BLIS_BLOCKED
deriving DecidableEq, Repr

/-- Column index of an implementation kind in a dispatch table. -/
def impl_t.toNat : impl_t → Nat
  | .BLIS_UNBLOCKED => 0
  | .BLIS_UNB_OPT => 1
  | .BLIS_BLOCKED => 2

/-- Modelled from the spec: `scalv_t` and its accessors are declared outside
the embedded files. A Control Node carries a variant identifier, an
implementation kind and a no-op flag. (A node that is absent altogether is a
node whose flag is set, whatever its other fields.) -/
structure scalv_t where
  impl_type : impl_t
  var_num : Nat
  noop : Bool
deriving DecidableEq, Repr

/-- Accessor `cntl_is_noop`. -/
def cntl_is_noop (cntl : scalv_t) : Bool := cntl.noop

/-- Accessor `cntl_var_num`. -/
def cntl_var_num (cntl : scalv_t) : Nat := cntl.var_num

/-- Accessor `cntl_impl_type`. -/
def cntl_impl_type (cntl : scalv_t) : impl_t := cntl.impl_type

/-- The realizations a `scalv_fp` function pointer can designate. -/
inductive scalv_fp
  | bli_scalv_unb_var1
deriving DecidableEq, Repr

/-- The static dispatch table `vars[1][3]`; `none` is a NULL cell. -/
def vars : List (List (Option scalv_fp)) :=
  --  unblocked                          optimized unblocked   blocked
  [ [ some scalv_fp.bli_scalv_unb_var1,  none,                 none ] ]

/-- The read `vars[n][i]`: `none` when an index is outside the table,
`some none` for a NULL cell, `some (some f)` for a realization. -/
def vars_at (n : Nat) (i : impl_t) : Option (Option scalv_fp) :=
  match vars.get? n with
  | none => none
  | some row => row.get? i.toNat

/-- Calls made by `bli_scalv_int`, with the arguments passed. -/
inductive scalv_call
  | check (beta x : obj_t) (cntl : scalv_t)
  | variant (f : scalv_fp) (beta x : obj_t)
deriving DecidableEq, Repr

/-- True exactly for the invocation of a dispatch-table entry. -/
def scalv_call.is_variant : scalv_call → Bool
  | .variant _ _ _ => true
  | .check _ _ _ => false

/-- True exactly for the invocation of the check routine. -/
def scalv_call.is_check : scalv_call → Bool
  | .check _ _ _ => true
  | .variant _ _ _ => false

/-- State of the scalv machine: the two objects passed by pointer and the
log of calls made so far. -/
structure scalv_state where
  beta : obj_t
  x : obj_t
  calls : List scalv_call
deriving DecidableEq, Repr

/-- Number of dispatch-table entries invoked (the variant call counter). -/
def scalv_state.variant_count (s : scalv_state) : Nat :=
  (s.calls.filter scalv_call.is_variant).length

/-- Modelled from the spec: `bli_scalv_unb_var1` is defined outside the
embedded files; scaling a vector by a factor multiplies every element by it.
Used as the concrete realization when a routine is evaluated. -/
def scalv_run_ref (_f : scalv_fp) (beta x : obj_t) : obj_t × obj_t :=
  (beta, { x with buffer := x.buffer.map (fun e => beta.buffer.headD 0 * e) })

/-- The routine `bli_scalv_int( beta, x, cntl )`.

Parameters standing for code outside the embedded file:
* `run f beta x` is what realization `f` leaves in `*beta` and `*x`;
* `ec` is `bli_error_checking_is_enabled()`;
* `chk beta x cntl` is `bli_scalv_int_check`: `none` when it returns,
  `some e` when it reports `e`, which is fatal. -/
def bli_scalv_int (run : scalv_fp → obj_t → obj_t → obj_t × obj_t) (ec : Bool)
    (chk : obj_t → obj_t → scalv_t → Option err_t)
    (beta x : obj_t) (cntl : scalv_t) : Outcome scalv_state :=
  -- Check parameters.
  let calls : List scalv_call := if ec then [scalv_call.check beta x cntl] else []
  match (if ec then chk beta x cntl else none) with
  | some e => .aborted e { beta := beta, x := x, calls := calls }
  | none =>
    -- First check if we are to skip this operation.
    if cntl_is_noop cntl then .returned { beta := beta, x := x, calls := calls }
    -- Return early if one of the matrix operands has a zero dimension.
    else if bli_obj_has_zero_dim x then .returned { beta := beta, x := x, calls := calls }
    -- Return early if the beta scalar equals one.
    else if bli_obj_equals beta BLIS_ONE then .returned { beta := beta, x := x, calls := calls }
    else
      -- Extract the variant number and implementation type.
      let n := cntl_var_num cntl
      let i := cntl_impl_type cntl
      -- Index into the variant array to extract the correct function pointer.
      match vars_at n i with
      | none => .out_of_range { beta := beta, x := x, calls := calls }
      | some none => .null_call { beta := beta, x := x, calls := calls }
      | some (some f) =>
        -- Invoke the variant.
        .returned { beta := (run f beta x).1, x := (run f beta x).2,
                    calls := calls ++ [scalv_call.variant f beta x] }

/-- The tests by which `bli_scalv_int` decides whether to return early, each
with the argument it inspects: `cntl_is_noop( cntl )`,
`bli_obj_has_zero_dim( *x )` and `bli_obj_equals( beta, &BLIS_ONE )`. -/
inductive scalv_test
  | is_noop (cntl : scalv_t)
  | has_zero_dim (x : obj_t)
  | equals_one (beta : obj_t)
deriving DecidableEq, Repr

/-- The routine `bli_scalv_int( beta, x, cntl )`, statement by statement as
in `bli_scalv_int`, with the order of evaluation made observable: the second
component lists, in the order in which they are evaluated, the early-return
tests the call evaluates. The first component is the outcome. -/
def bli_scalv_int_traced (run : scalv_fp → obj_t → obj_t → obj_t × obj_t) (ec : Bool)
    (chk : obj_t → obj_t → scalv_t → Option err_t)
    (beta x : obj_t) (cntl : scalv_t) : Outcome scalv_state × List scalv_test :=
  -- Check parameters.
  let calls : List scalv_call := if ec then [scalv_call.check beta x cntl] else []
  match (if ec then chk beta x cntl else none) with
  | some e => (.aborted e { beta := beta, x := x, calls := calls }, [])
  | none =>
    -- First check if we are to skip this operation.
    let t1 := [scalv_test.is_noop cntl]
    if cntl_is_noop cntl then (.returned { beta := beta, x := x, calls := calls }, t1)
    else
      -- Return early if one of the matrix operands has a zero dimension.
      let t2 := t1 ++ [scalv_test.has_zero_dim x]
      if bli_obj_has_zero_dim x then
        (.returned { beta := beta, x := x, calls := calls }, t2)
      else
        -- Return early if the beta scalar equals one.
        let t3 := t2 ++ [scalv_test.equals_one beta]
        if bli_obj_equals beta BLIS_ONE then
          (.returned { beta := beta, x := x, calls := calls }, t3)
        else
          -- Extract the variant number and implementation type.
          let n := cntl_var_num cntl
          let i := cntl_impl_type cntl
          -- Index into the variant array to extract the correct function pointer.
          match vars_at n i with
          | none => (.out_of_range { beta := beta, x := x, calls := calls }, t3)
          | some none => (.null_call { beta := beta, x := x, calls := calls }, t3)
          | some (some f) =>
            -- Invoke the variant.
            (.returned { beta := (run f beta x).1, x := (run f beta x).2,
                         calls := calls ++ [scalv_call.variant f beta x] }, t3)

/-! ## abmaxv: `bli_abmaxv` and the typed front ends -/

/-- Calls made by the object front end `bli_abmaxv`, with the arguments
passed. -/
inductive abmaxv_call
  | check (x abmax_i : obj_t)
  | variant (x abmax_i : obj_t)
deriving DecidableEq, Repr

/-- True exactly for the invocation of `bli_abmaxv_unb_var1`. -/
def abmaxv_call.is_variant : abmaxv_call → Bool
  | .variant _ _ => true
  | .check _ _ => false

/-- True exactly for the invocation of `bli_abmaxv_check`. -/
def abmaxv_call.is_check : abmaxv_call → Bool
  | .check _ _ => true
  | .variant _ _ => false

/-- State of the abmaxv machine: the two objects passed by pointer and the
log of calls made so far. -/
structure abmaxv_state where
  x : obj_t
  abmax_i : obj_t
  calls : List abmaxv_call
deriving DecidableEq, Repr

/-- Number of invocations of the variant (the variant call counter). -/
def abmaxv_state.variant_count (s : abmaxv_state) : Nat :=
  (s.calls.filter abmaxv_call.is_variant).length

/-- The object front end `bli_abmaxv( x, abmax_i )` generated by
`GENFRONT( abmaxv, abmaxv_unb_var1 )`.

Parameters standing for code outside the embedded file:
* `var x abmax_i` is what `bli_abmaxv_unb_var1` leaves in `*x` and `*abmax_i`;
* `ec` is `bli_error_checking_is_enabled()`;
* `chk x abmax_i` is `bli_abmaxv_check`: `none` when it returns, `some e`
  when it reports `e`, which is fatal. -/
def bli_abmaxv (var : obj_t → obj_t → obj_t × obj_t) (ec : Bool)
    (chk : obj_t → obj_t → Option err_t)
    (x abmax_i : obj_t) : Outcome abmaxv_state :=
  let calls : List abmaxv_call := if ec then [abmaxv_call.check x abmax_i] else []
  match (if ec then chk x abmax_i else none) with
  | some e => .aborted e { x := x, abmax_i := abmax_i, calls := calls }
  | none =>
    .returned { x := (var x abmax_i).1, abmax_i := (var x abmax_i).2,
                calls := calls ++ [abmaxv_call.variant x abmax_i] }

/-- A call of the typed kernel `PASTEMAC(chx,abmaxv_unb_var1)` with its
arguments: length, the array behind `x`, increment, the value behind
`abmax_i`. -/
structure abmaxv_kcall where
  n : Int
  x : List Int
  incx : Int
  abmax_i : Int
deriving DecidableEq, Repr

/-- State of a typed abmaxv call: the array behind `x`, the value behind
`abmax_i`, and the log of kernel calls. -/
structure abmaxv_tstate where
  x : List Int
  abmax_i : Int
  kcalls : List abmaxv_kcall
deriving DecidableEq, Repr

/-- The typed front end `PASTEMAC(chx,abmaxv)( n, x, incx, abmax_i )`
generated by `GENTFUNCI`, the same for each datatype character `chx`.
`kern n x incx abmax_i` is what `PASTEMAC(chx,abmaxv_unb_var1)`, defined
outside the embedded file, leaves behind `x` and `abmax_i`. -/
def abmaxv_typed (kern : Int → List Int → Int → Int → List Int × Int)
    (n : Int) (x : List Int) (incx : Int) (abmax_i : Int) : abmaxv_tstate :=
  { x := (kern n x incx abmax_i).1, abmax_i := (kern n x incx abmax_i).2,
    kcalls := [{ n := n, x := x, incx := incx, abmax_i := abmax_i }] }

/-- An instrumented stand-in for a variant that touches neither object. -/
def abmaxv_var_stub (x abmax_i : obj_t) : obj_t × obj_t := (x, abmax_i)

/-- An instrumented stand-in for a typed kernel that touches nothing. -/
def abmaxv_kern_stub (_n : Int) (x : List Int) (_incx : Int) (abmax_i : Int) :
    List Int × Int := (x, abmax_i)

/-! ## BLAS-compatible dot: `GENTFUNCDOT`, `sdsdot`, `dsdot` -/

/-- Modelled from the spec: `bli_convert_blas_dim1` is defined outside the
embedded files; negative length ⇒ treated as zero. -/
def bli_convert_blas_dim1 (n_blas : Int) : Int :=
  if n_blas < 0 then 0 else n_blas

/-- Modelled from the spec: `bli_convert_blas_incv` is defined outside the
embedded files; negative increment ⇒ iteration direction reversed, base
pointer adjusted so the first logical element is processed first. The
result is the pair (x_blis, incx_blis). -/
def bli_convert_blas_incv (n x_blas incx_blas : Int) : Int × Int :=
  if incx_blas < 0 then (x_blas + (n - 1) * (-incx_blas), incx_blas)
  else (x_blas, incx_blas)

/-- Optional conjugation of an element. -/
def conj_if {R : Type} (cj : R → R) (c : Bool) (v : R) : R :=
  if c then cj v else v

/-- The element loop of the dot operation: `k` iterations, each adding
conjx(*chi1) * conjy(*psi1) to the accumulator and advancing the two
pointers by their increments. -/
def dotv_loop {R : Type} [Add R] [Mul R] (cj : R → R) (conjx conjy : Bool)
    (mem : Int → R) (incx incy : Int) : Nat → Int → Int → R → R
  | 0, _, _, acc => acc
  | k + 1, chi1, psi1, acc =>
    dotv_loop cj conjx conjy mem incx incy k (chi1 + incx) (psi1 + incy)
      (acc + conj_if cj conjx (mem chi1) * conj_if cj conjy (mem psi1))

/-- Modelled from the spec: the BLIS dot operation `PASTEMAC3(ch,ch,ch,dotv)`
is defined outside the embedded files; it forms the dot product of the `n`
elements found from the given base addresses with the given (signed)
increments, and is zero for an empty operand. -/
def bli_dotv {R : Type} [Zero R] [Add R] [Mul R] (cj : R → R) (conjx conjy : Bool)
    (mem : Int → R) (n x incx y incy : Int) : R :=
  dotv_loop cj conjx conjy mem incx incy n.toNat x y 0

/-- Modelled from the spec: `bli_init_safe` belongs to the process-wide
initialization collaborator. Given whether the library is up, it brings it up
and reports in `init_result` whether it was this call that did so. -/
def bli_init_safe (lib_up : Bool) : Bool × err_t :=
  if lib_up then (true, err_t.BLIS_FAILURE) else (true, err_t.BLIS_SUCCESS)

/-- Modelled from the spec: `bli_finalize_safe` takes the library down again
exactly when the matching `bli_init_safe` brought it up. -/
def bli_finalize_safe (lib_up : Bool) (init_result : err_t) : Bool :=
  if init_result = err_t.BLIS_SUCCESS then false else lib_up

/-- Arguments that the routine generated by `GENTFUNCDOT` passes to the
BLIS dot operation. -/
structure dot_args where
  n0 : Int
  x0 : Int
  incx0 : Int
  y0 : Int
  incy0 : Int
deriving DecidableEq, Repr

/-- The conversions at the head of the routine generated by `GENTFUNCDOT`. -/
def bla_dot_args (n x incx y incy : Int) : dot_args :=
  -- Convert/typecast negative values of n to zero.
  let n0 := bli_convert_blas_dim1 n
  -- If the input increments are negative, adjust the pointers.
  let cx := bli_convert_blas_incv n0 x incx
  let cy := bli_convert_blas_incv n0 y incy
  { n0 := n0, x0 := cx.1, incx0 := cx.2, y0 := cy.1, incy0 := cy.2 }

/-- The routine `PASTEF772(chxy,blasname,chc)( n, x, incx, y, incy )`
generated by `GENTFUNCDOT`. `mem` is the memory the pointers `x` and `y`
address, in units of elements; `cj` is conjugation on the element type and
`blis_conjx` tells whether the instance conjugates x. The result is the
returned `rho` and whether the library is up afterwards. -/
def bla_dot {R : Type} [Zero R] [Add R] [Mul R] (cj : R → R) (blis_conjx : Bool)
    (lib_up : Bool) (mem : Int → R) (n x incx y incy : Int) : R × Bool :=
  -- Initialize BLIS (if it is not already initialized).
  let st := bli_init_safe lib_up
  let a := bla_dot_args n x incx y incy
  -- Call BLIS interface.
  let rho := bli_dotv cj blis_conjx false mem a.n0 a.x0 a.incx0 a.y0 a.incy0
  -- Finalize BLIS (if it was initialized above).
  (rho, bli_finalize_safe st.1 st.2)

/-- Offset, from the pointer the caller passes, of logical element `i` of an
`n`-element BLAS operand with increment `inc`: i*inc when inc >= 0 and
(n-1-i)*|inc| when inc < 0. -/
def blas_offset (n inc : Int) (i : Nat) : Int :=
  if 0 ≤ inc then (i : Int) * inc else (n - 1 - (i : Int)) * (inc.natAbs : Int)

/-- The dot product as the claim words it: the sum over i < n of
conj?(X_i) * Y_i with the logical elements placed by `blas_offset`. -/
def dot_spec {R : Type} [AddCommMonoid R] [Mul R] (cj : R → R) (conjx : Bool)
    (mem : Int → R) (n x incx y incy : Int) : R :=
  ∑ i in Finset.range n.toNat,
    conj_if cj conjx (mem (x + blas_offset n incx i)) * mem (y + blas_offset n incy i)

/-- State after one of the mixed-precision entry points: the value handed
back and the error codes signalled through `bli_check_error_code`. -/
structure sdot_state where
  rho : Int
  signalled : List err_t
deriving DecidableEq, Repr

/-- The entry point `PASTEF77(sd,sdot)( n, x, incx, y, incy )`.
`cec_returns e` tells whether `bli_check_error_code( e )`, defined outside
the embedded file, hands control back. -/
def sdsdot (cec_returns : err_t → Bool) (_mem : Int → Int)
    (_n _x _incx _y _incy : Int) : Outcome sdot_state :=
  if cec_returns err_t.BLIS_NOT_YET_IMPLEMENTED then
    .returned { rho := 0, signalled := [err_t.BLIS_NOT_YET_IMPLEMENTED] }
  else
    .aborted err_t.BLIS_NOT_YET_IMPLEMENTED
      { rho := 0, signalled := [err_t.BLIS_NOT_YET_IMPLEMENTED] }

/-- The entry point `PASTEF77(d,sdot)( n, x, incx, y, incy )`.
`cec_returns e` tells whether `bli_check_error_code( e )`, defined outside
the embedded file, hands control back. -/
def dsdot (cec_returns : err_t → Bool) (_mem : Int → Int)
    (_n _x _incx _y _incy : Int) : Outcome sdot_state :=
  if cec_returns err_t.BLIS_NOT_YET_IMPLEMENTED then
    .returned { rho := 0, signalled := [err_t.BLIS_NOT_YET_IMPLEMENTED] }
  else
    .aborted err_t.BLIS_NOT_YET_IMPLEMENTED
      { rho := 0, signalled := [err_t.BLIS_NOT_YET_IMPLEMENTED] }

/-! ## Concrete inputs used when the routines are evaluated -/

/-- The scalar 2. -/
def ex_two : obj_t := { m := 1, n := 1, buffer := [2] }

/-- A 5-element vector. -/
def ex_vec5 : obj_t := { m := 5, n := 1, buffer := [1, 2, 3, 4, 5] }

/-- A zero-length vector. -/
def ex_vec0 : obj_t := { m := 0, n := 1, buffer := [] }

/-- An index object holding 7. -/
def ex_idx : obj_t := { m := 1, n := 1, buffer := [7] }

/-- Control node selecting (variant 0, reference unblocked). -/
def ex_cntl_unb : scalv_t := { impl_type := .BLIS_UNBLOCKED, var_num := 0, noop := false }

/-- Control node selecting (variant 0, optimized unblocked). -/
def ex_cntl_opt : scalv_t := { impl_type := .BLIS_UNB_OPT, var_num := 0, noop := false }

/-- Control node marked no-op whose variant number lies outside the table. -/
def ex_cntl_noop : scalv_t := { impl_type := .BLIS_BLOCKED, var_num := 4, noop := true }

/-- A scalv check routine that accepts everything. -/
def scalv_chk_accept (_beta _x : obj_t) (_cntl : scalv_t) : Option err_t := none

/-- A scalv check routine that rejects everything. -/
def scalv_chk_reject (_beta _x : obj_t) (_cntl : scalv_t) : Option err_t :=
  some err_t.BLIS_FAILURE

/-- An abmaxv check routine that rejects everything. -/
def abmaxv_chk_reject (_x _abmax_i : obj_t) : Option err_t :=
  some err_t.BLIS_FAILURE

/-- Memory used when the dot routine is evaluated: address a holds a + 1. -/
def ex_mem (a : Int) : Int := a + 1

/-! ## Helper lemmas -/

theorem scalv_check_gate_cases (ec : Bool) (o : Option err_t)
    (h : ec = false ∨ o = none) : (if ec then o else none) = none := by
  rcases h with h | h <;> simp [h]

theorem dotv_loop_eq_sum {R : Type} [Semiring R] (cj : R → R) (conjx conjy : Bool)
    (mem : Int → R) (incx incy : Int) (k : Nat) (chi1 psi1 : Int) (acc : R) :
    dotv_loop cj conjx conjy mem incx incy k chi1 psi1 acc =
      acc + ∑ i in Finset.range k,
        conj_if cj conjx (mem (chi1 + (i : Int) * incx)) *
          conj_if cj conjy (mem (psi1 + (i : Int) * incy)) := by
  induction k generalizing chi1 psi1 acc with
  | zero => simp [dotv_loop]
  | succ k ih =>
    rw [dotv_loop, ih, Finset.sum_range_succ', add_assoc]
    congr 1
    rw [add_comm]
    congr 1
    · apply Finset.sum_congr rfl
      intro i _
      have hx : chi1 + incx + (i : Int) * incx = chi1 + ((i + 1 : Nat) : Int) * incx := by
        push_cast; ring
      have hy : psi1 + incy + (i : Int) * incy = psi1 + ((i + 1 : Nat) : Int) * incy := by
        push_cast; ring
      rw [hx, hy]
    · simp

theorem convert_incv_address (n x inc : Int) (i : Nat) :
    (bli_convert_blas_incv n x inc).1 + (i : Int) * (bli_convert_blas_incv n x inc).2 =
      x + blas_offset n inc i := by
  unfold bli_convert_blas_incv blas_offset
  by_cases h : inc < 0
  · have h2 : ¬ (0 ≤ inc) := not_le.mpr h
    have h3 : (inc.natAbs : Int) = -inc := Int.ofNat_natAbs_of_nonpos (le_of_lt h)
    simp only [h, h2, if_true, if_false, h3]
    ring
  · have h2 : 0 ≤ inc := not_lt.mp h
    simp only [h, h2, if_true, if_false]

theorem blas_offset_neg_reflect (n inc : Int) (i : Nat) (hn : 0 ≤ n) (hi : i < n.toNat) :
    blas_offset n (-inc) i = blas_offset n inc (n.toNat - 1 - i) := by
  have hk : ((n.toNat - 1 - i : Nat) : Int) = n - 1 - (i : Int) := by
    have : (n.toNat : Int) = n := Int.toNat_of_nonneg hn
    omega
  unfold blas_offset
  rw [hk]
  rcases lt_trichotomy inc 0 with h | h | h
  · have h1 : 0 ≤ -inc := by omega
    have h2 : ¬ (0 ≤ inc) := by omega
    have h3 : (inc.natAbs : Int) = -inc := Int.ofNat_natAbs_of_nonpos (le_of_lt h)
    simp only [h1, h2, if_true, if_false, h3]
    ring
  · subst h; simp
  · have h1 : ¬ (0 ≤ -inc) := by omega
    have h2 : 0 ≤ inc := by omega
    have h3 : ((-inc).natAbs : Int) = inc := by
      rw [Int.natAbs_neg]; exact Int.natAbs_of_nonneg h2
    simp only [h1, h2, if_true, if_false, h3]

theorem bla_dot_eq_dot_spec {R : Type} [Semiring R] (cj : R → R) (blis_conjx lib_up : Bool)
    (mem : Int → R) (n x incx y incy : Int) (hn : 0 ≤ n) :
    (bla_dot cj blis_conjx lib_up mem n x incx y incy).1 =
      dot_spec cj blis_conjx mem n x incx y incy := by
  have hn0 : bli_convert_blas_dim1 n = n := by
    unfold bli_convert_blas_dim1; simp [not_lt.mpr hn]
  simp only [bla_dot, bla_dot_args, bli_dotv, hn0, dotv_loop_eq_sum, zero_add, dot_spec]
  apply Finset.sum_congr rfl
  intro i _
  rw [convert_incv_address, convert_incv_address]
  simp [conj_if]

theorem dot_spec_neg_incs {R : Type} [Semiring R] (cj : R → R) (conjx : Bool)
    (mem : Int → R) (n x incx y incy : Int) (hn : 0 ≤ n) :
    dot_spec cj conjx mem n x (-incx) y (-incy) = dot_spec cj conjx mem n x incx y incy := by
  unfold dot_spec
  rw [← Finset.sum_range_reflect
    (fun i => conj_if cj conjx (mem (x + blas_offset n incx i)) *
      mem (y + blas_offset n incy i)) n.toNat]
  apply Finset.sum_congr rfl
  intro i hi
  have hi2 : i < n.toNat := Finset.mem_range.mp hi
  simp only [blas_offset_neg_reflect n incx i hn hi2, blas_offset_neg_reflect n incy i hn hi2]

/-! ## scalv: elision -/

/-- C1: whatever the control node and the operand x, when beta equals the
multiplicative identity (`bli_obj_equals beta BLIS_ONE`), `bli_scalv_int`
invokes no entry of the dispatch table (variant call count zero) and leaves
x, hence its buffer, as it was; and it ends by a normal return whenever the
parameter check is disabled or hands control back. -/
theorem scalv_int_unit_beta_elided
    (run : scalv_fp → obj_t → obj_t → obj_t × obj_t) (ec : Bool)
    (chk : obj_t → obj_t → scalv_t → Option err_t)
    (beta x : obj_t) (cntl : scalv_t)
    (h : bli_obj_equals beta BLIS_ONE = true) :
    (bli_scalv_int run ec chk beta x cntl).state.variant_count = 0 ∧
    (bli_scalv_int run ec chk beta x cntl).state.x = x ∧
    (bli_scalv_int run ec chk beta x cntl).state.x.buffer = x.buffer ∧
    ((ec = false ∨ chk beta x cntl = none) →
      bli_scalv_int run ec chk beta x cntl =
        .returned { beta := beta, x := x,
                    calls := if ec then [scalv_call.check beta x cntl] else [] }) := by
  cases ec <;> cases hc : chk beta x cntl <;>
    cases hn : cntl_is_noop cntl <;> cases hz : bli_obj_has_zero_dim x <;>
    simp [bli_scalv_int, Outcome.state, scalv_state.variant_count,
      scalv_call.is_variant, h, hc, hn, hz]

theorem scalv_int_unit_beta_elided_witness :
    bli_obj_equals BLIS_ONE BLIS_ONE = true ∧
    bli_scalv_int scalv_run_ref false scalv_chk_reject BLIS_ONE ex_vec5 ex_cntl_unb =
      .returned { beta := BLIS_ONE, x := ex_vec5, calls := [] } :=
  ⟨by decide,
   (scalv_int_unit_beta_elided scalv_run_ref false scalv_chk_reject BLIS_ONE ex_vec5
      ex_cntl_unb (by decide)).2.2.2 (Or.inl rfl)⟩

/-- C2: whatever beta and the control node, when x has a zero dimension
(`bli_obj_has_zero_dim x`), `bli_scalv_int` invokes no entry of the dispatch
table (call count zero) and modifies neither x nor beta; and it ends by a
normal return whenever the parameter check is disabled or hands control
back. -/
theorem scalv_int_zero_dim_elided
    (run : scalv_fp → obj_t → obj_t → obj_t × obj_t) (ec : Bool)
    (chk : obj_t → obj_t → scalv_t → Option err_t)
    (beta x : obj_t) (cntl : scalv_t)
    (h : bli_obj_has_zero_dim x = true) :
    (bli_scalv_int run ec chk beta x cntl).state.variant_count = 0 ∧
    (bli_scalv_int run ec chk beta x cntl).state.x = x ∧
    (bli_scalv_int run ec chk beta x cntl).state.beta = beta ∧
    ((ec = false ∨ chk beta x cntl = none) →
      bli_scalv_int run ec chk beta x cntl =
        .returned { beta := beta, x := x,
                    calls := if ec then [scalv_call.check beta x cntl] else [] }) := by
  cases ec <;> cases hc : chk beta x cntl <;> cases hn : cntl_is_noop cntl <;>
    simp [bli_scalv_int, Outcome.state, scalv_state.variant_count,
      scalv_call.is_variant, h, hc, hn]

theorem scalv_int_zero_dim_elided_witness :
    bli_obj_has_zero_dim ex_vec0 = true ∧
    bli_scalv_int scalv_run_ref true scalv_chk_accept ex_two ex_vec0 ex_cntl_unb =
      .returned { beta := ex_two, x := ex_vec0,
                  calls := [scalv_call.check ex_two ex_vec0 ex_cntl_unb] } :=
  ⟨by decide,
   (scalv_int_zero_dim_elided scalv_run_ref true scalv_chk_accept ex_two ex_vec0
      ex_cntl_unb (by decide)).2.2.2 (Or.inr rfl)⟩

/-- C9: whatever beta and x (zero dimension or not, beta equal to one or not)
and whatever the variant number and implementation kind of the node (in the
table, NULL, or outside it), when the control node is marked no-op
(`cntl_is_noop cntl`) `bli_scalv_int` makes no dispatch-table lookup and
invokes no variant, so it can reach neither a NULL cell nor an index outside
the table, and leaves x and beta as they were; it ends by a normal return
whenever the parameter check is disabled or hands control back.

The no-op test precedes the zero-dimension and identity-scalar tests. In the
order-recording embedding `bli_scalv_int_traced`, whose outcome is that of
`bli_scalv_int`: for a no-op node the only early-return test evaluated is the
no-op test (the other two are never reached), and it is evaluated whenever
the parameter check is disabled or hands control back; and for every call,
with any node, the tests evaluated are an initial part of the sequence no-op
test, zero-dimension test, identity-scalar test, so neither of the latter two
is ever evaluated before the no-op test or without it. -/
theorem scalv_int_noop_elided
    (run : scalv_fp → obj_t → obj_t → obj_t × obj_t) (ec : Bool)
    (chk : obj_t → obj_t → scalv_t → Option err_t)
    (beta x : obj_t) (cntl : scalv_t)
    (h : cntl_is_noop cntl = true) :
    (bli_scalv_int run ec chk beta x cntl).state.variant_count = 0 ∧
    (bli_scalv_int run ec chk beta x cntl).state.x = x ∧
    (bli_scalv_int run ec chk beta x cntl).state.beta = beta ∧
    (∀ s, bli_scalv_int run ec chk beta x cntl ≠ .null_call s) ∧
    (∀ s, bli_scalv_int run ec chk beta x cntl ≠ .out_of_range s) ∧
    ((ec = false ∨ chk beta x cntl = none) →
      bli_scalv_int run ec chk beta x cntl =
        .returned { beta := beta, x := x,
                    calls := if ec then [scalv_call.check beta x cntl] else [] }) ∧
    (bli_scalv_int_traced run ec chk beta x cntl).1 =
      bli_scalv_int run ec chk beta x cntl ∧
    (∀ t ∈ (bli_scalv_int_traced run ec chk beta x cntl).2,
      t = scalv_test.is_noop cntl) ∧
    ((ec = false ∨ chk beta x cntl = none) →
      (bli_scalv_int_traced run ec chk beta x cntl).2 = [scalv_test.is_noop cntl]) ∧
    (∀ (beta2 x2 : obj_t) (cntl2 : scalv_t),
      (bli_scalv_int_traced run ec chk beta2 x2 cntl2).1 =
        bli_scalv_int run ec chk beta2 x2 cntl2 ∧
      ((bli_scalv_int_traced run ec chk beta2 x2 cntl2).2 = [] ∨
       (bli_scalv_int_traced run ec chk beta2 x2 cntl2).2 =
         [scalv_test.is_noop cntl2] ∨
       (bli_scalv_int_traced run ec chk beta2 x2 cntl2).2 =
         [scalv_test.is_noop cntl2, scalv_test.has_zero_dim x2] ∨
       (bli_scalv_int_traced run ec chk beta2 x2 cntl2).2 =
         [scalv_test.is_noop cntl2, scalv_test.has_zero_dim x2,
          scalv_test.equals_one beta2])) := by
  refine ⟨?_, ?_, ?_, ?_, ?_, ?_, ?_, ?_, ?_, ?_⟩
  · cases ec <;> cases hc : chk beta x cntl <;>
      simp [bli_scalv_int, Outcome.state, scalv_state.variant_count,
        scalv_call.is_variant, h, hc]
  · cases ec <;> cases hc : chk beta x cntl <;>
      simp [bli_scalv_int, Outcome.state, h, hc]
  · cases ec <;> cases hc : chk beta x cntl <;>
      simp [bli_scalv_int, Outcome.state, h, hc]
  · cases ec <;> cases hc : chk beta x cntl <;> simp [bli_scalv_int, h, hc]
  · cases ec <;> cases hc : chk beta x cntl <;> simp [bli_scalv_int, h, hc]
  · cases ec <;> cases hc : chk beta x cntl <;> simp [bli_scalv_int, h, hc]
  · cases ec <;> cases hc : chk beta x cntl <;>
      simp [bli_scalv_int_traced, bli_scalv_int, h, hc]
  · cases ec <;> cases hc : chk beta x cntl <;>
      simp [bli_scalv_int_traced, h, hc]
  · cases ec <;> cases hc : chk beta x cntl <;>
      simp [bli_scalv_int_traced, h, hc]
  · intro beta2 x2 cntl2
    cases ec <;> cases hc : chk beta2 x2 cntl2 <;>
      cases hn : cntl_is_noop cntl2 <;> cases hz : bli_obj_has_zero_dim x2 <;>
      cases hb : bli_obj_equals beta2 BLIS_ONE <;>
      rcases hv : vars_at (cntl_var_num cntl2) (cntl_impl_type cntl2) with _ | _ | f <;>
      simp [bli_scalv_int_traced, bli_scalv_int, hc, hn, hz, hb, hv]

theorem scalv_int_noop_elided_witness :
    cntl_is_noop ex_cntl_noop = true ∧
    bli_obj_has_zero_dim ex_vec5 = false ∧ bli_obj_equals ex_two BLIS_ONE = false ∧
    vars_at (cntl_var_num ex_cntl_noop) (cntl_impl_type ex_cntl_noop) = none ∧
    bli_scalv_int scalv_run_ref false scalv_chk_reject ex_two ex_vec5 ex_cntl_noop =
      .returned { beta := ex_two, x := ex_vec5, calls := [] } ∧
    (bli_scalv_int_traced scalv_run_ref false scalv_chk_reject ex_two ex_vec5
        ex_cntl_noop).2 = [scalv_test.is_noop ex_cntl_noop] ∧
    (bli_scalv_int_traced scalv_run_ref false scalv_chk_reject ex_two ex_vec0
        ex_cntl_unb).2 =
      [scalv_test.is_noop ex_cntl_unb, scalv_test.has_zero_dim ex_vec0] ∧
    (bli_scalv_int_traced scalv_run_ref false scalv_chk_reject BLIS_ONE ex_vec5
        ex_cntl_unb).2 =
      [scalv_test.is_noop ex_cntl_unb, scalv_test.has_zero_dim ex_vec5,
       scalv_test.equals_one BLIS_ONE] :=
  have h := scalv_int_noop_elided scalv_run_ref false scalv_chk_reject ex_two ex_vec5
    ex_cntl_noop (by decide)
  ⟨by decide, by decide, by decide, by decide,
   h.2.2.2.2.2.1 (Or.inl rfl), h.2.2.2.2.2.2.2.2.1 (Or.inl rfl), by decide, by decide⟩

/-! ## scalv: dispatch -/

/-- C3, as stated, fails: a call that is not elided (node not marked no-op, x
without a zero dimension, beta not one) invokes no realization at all when the
selected cell of `vars` is NULL (here variant 0, optimized unblocked, error
checking disabled), and none either when the enabled parameter check rejects
the arguments (here with the cell of `bli_scalv_unb_var1` selected). -/
theorem scalv_int_dispatch_counterexample :
    cntl_is_noop ex_cntl_opt = false ∧ cntl_is_noop ex_cntl_unb = false ∧
    bli_obj_has_zero_dim ex_vec5 = false ∧
    bli_obj_equals ex_two BLIS_ONE = false ∧
    (bli_scalv_int scalv_run_ref false scalv_chk_accept ex_two ex_vec5
        ex_cntl_opt).state.variant_count = 0 ∧
    bli_scalv_int scalv_run_ref false scalv_chk_accept ex_two ex_vec5 ex_cntl_opt =
      .null_call { beta := ex_two, x := ex_vec5, calls := [] } ∧
    (bli_scalv_int scalv_run_ref true scalv_chk_reject ex_two ex_vec5
        ex_cntl_unb).state.variant_count = 0 ∧
    bli_scalv_int scalv_run_ref true scalv_chk_reject ex_two ex_vec5 ex_cntl_unb =
      .aborted err_t.BLIS_FAILURE
        { beta := ex_two, x := ex_vec5,
          calls := [scalv_call.check ex_two ex_vec5 ex_cntl_unb] } := by
  decide

/-- C3, amended: for every input that is not elided (node not marked no-op, x
without a zero dimension, beta not one), for which the parameter check is
disabled or hands control back, and whose cell
`vars[cntl_var_num cntl][cntl_impl_type cntl]` holds a realization `f`,
`bli_scalv_int` invokes `f` exactly once, passing the beta and x it received,
and returns what `f` leaves; besides the parameter check (when enabled) it
makes no other call. For (variant 0, reference unblocked) the realization is
`bli_scalv_unb_var1`, and two nodes with the same (variant, implementation)
pair read the same cell. -/
theorem scalv_int_dispatch
    (run : scalv_fp → obj_t → obj_t → obj_t × obj_t) (ec : Bool)
    (chk : obj_t → obj_t → scalv_t → Option err_t)
    (beta x : obj_t) (cntl : scalv_t) (f : scalv_fp)
    (hn : cntl_is_noop cntl = false)
    (hz : bli_obj_has_zero_dim x = false)
    (hb : bli_obj_equals beta BLIS_ONE = false)
    (hc : ec = false ∨ chk beta x cntl = none)
    (hf : vars_at (cntl_var_num cntl) (cntl_impl_type cntl) = some (some f)) :
    bli_scalv_int run ec chk beta x cntl =
      .returned { beta := (run f beta x).1, x := (run f beta x).2,
                  calls := (if ec then [scalv_call.check beta x cntl] else []) ++
                    [scalv_call.variant f beta x] } ∧
    (bli_scalv_int run ec chk beta x cntl).state.calls.filter scalv_call.is_variant =
      [scalv_call.variant f beta x] ∧
    (bli_scalv_int run ec chk beta x cntl).state.variant_count = 1 ∧
    vars_at 0 impl_t.BLIS_UNBLOCKED = some (some scalv_fp.bli_scalv_unb_var1) ∧
    (∀ cntl2 : scalv_t, cntl_var_num cntl2 = cntl_var_num cntl →
      cntl_impl_type cntl2 = cntl_impl_type cntl →
      vars_at (cntl_var_num cntl2) (cntl_impl_type cntl2) = some (some f)) := by
  have hg := scalv_check_gate_cases ec (chk beta x cntl) hc
  have hr : bli_scalv_int run ec chk beta x cntl =
      .returned { beta := (run f beta x).1, x := (run f beta x).2,
                  calls := (if ec then [scalv_call.check beta x cntl] else []) ++
                    [scalv_call.variant f beta x] } := by
    simp only [bli_scalv_int, hg, hn, hz, hb, hf]
    simp
  refine ⟨hr, ?_, ?_, by decide, ?_⟩
  · rw [hr]; cases ec <;> simp [Outcome.state, scalv_call.is_variant]
  · rw [hr]; cases ec <;>
      simp [Outcome.state, scalv_state.variant_count, scalv_call.is_variant]
  · intro cntl2 h1 h2
    rw [h1, h2]; exact hf

theorem scalv_int_dispatch_witness :
    bli_scalv_int scalv_run_ref true scalv_chk_accept ex_two ex_vec5 ex_cntl_unb =
      .returned { beta := ex_two, x := { m := 5, n := 1, buffer := [2, 4, 6, 8, 10] },
                  calls := [scalv_call.check ex_two ex_vec5 ex_cntl_unb,
                            scalv_call.variant scalv_fp.bli_scalv_unb_var1 ex_two ex_vec5] } :=
  (scalv_int_dispatch scalv_run_ref true scalv_chk_accept ex_two ex_vec5 ex_cntl_unb
    scalv_fp.bli_scalv_unb_var1 (by decide) (by decide) (by decide) (Or.inr rfl)
    (by decide)).1

/-- C4, as stated, fails: with error checking disabled, the call that is not
elided and selects (variant 0, optimized unblocked) does not end in the report
of a configuration error; the NULL cell is fetched and called through. -/
theorem scalv_int_null_cell_counterexample :
    cntl_is_noop ex_cntl_opt = false ∧ bli_obj_has_zero_dim ex_vec5 = false ∧
    bli_obj_equals ex_two BLIS_ONE = false ∧
    vars_at (cntl_var_num ex_cntl_opt) (cntl_impl_type ex_cntl_opt) = some none ∧
    (bli_scalv_int scalv_run_ref false scalv_chk_accept ex_two ex_vec5
        ex_cntl_opt).is_aborted = false ∧
    bli_scalv_int scalv_run_ref false scalv_chk_accept ex_two ex_vec5 ex_cntl_opt =
      .null_call { beta := ex_two, x := ex_vec5, calls := [] } := by
  decide

/-- C4, amended: for every call of `bli_scalv_int` that is not elided, for
which the parameter check is disabled or hands control back, and whose
control node selects variant 0 with optimized-unblocked or blocked (the two
NULL cells of `vars`), the routine makes no test of the fetched cell: it
calls through the NULL pointer. At that point no realization has been
invoked and x and beta are unmodified, but the call neither reports a
configuration error nor returns. -/
theorem scalv_int_null_cell
    (run : scalv_fp → obj_t → obj_t → obj_t × obj_t) (ec : Bool)
    (chk : obj_t → obj_t → scalv_t → Option err_t)
    (beta x : obj_t) (cntl : scalv_t)
    (hn : cntl_is_noop cntl = false)
    (hz : bli_obj_has_zero_dim x = false)
    (hb : bli_obj_equals beta BLIS_ONE = false)
    (hc : ec = false ∨ chk beta x cntl = none)
    (hv : cntl_var_num cntl = 0)
    (hi : cntl_impl_type cntl = impl_t.BLIS_UNB_OPT ∨
          cntl_impl_type cntl = impl_t.BLIS_BLOCKED) :
    vars_at (cntl_var_num cntl) (cntl_impl_type cntl) = some none ∧
    bli_scalv_int run ec chk beta x cntl =
      .null_call { beta := beta, x := x,
                   calls := if ec then [scalv_call.check beta x cntl] else [] } ∧
    (bli_scalv_int run ec chk beta x cntl).state.variant_count = 0 ∧
    (bli_scalv_int run ec chk beta x cntl).is_aborted = false := by
  have hg := scalv_check_gate_cases ec (chk beta x cntl) hc
  have hcell : vars_at (cntl_var_num cntl) (cntl_impl_type cntl) = some none := by
    rw [hv]; rcases hi with hi | hi <;> rw [hi] <;> decide
  have hr : bli_scalv_int run ec chk beta x cntl =
      .null_call { beta := beta, x := x,
                   calls := if ec then [scalv_call.check beta x cntl] else [] } := by
    simp only [bli_scalv_int, hg, hn, hz, hb, hcell]
    simp
  refine ⟨hcell, hr, ?_, ?_⟩
  · rw [hr]; cases ec <;>
      simp [Outcome.state, scalv_state.variant_count, scalv_call.is_variant]
  · rw [hr]; rfl

theorem scalv_int_null_cell_witness :
    bli_scalv_int scalv_run_ref true scalv_chk_accept ex_two ex_vec5 ex_cntl_opt =
      .null_call { beta := ex_two, x := ex_vec5,
                   calls := [scalv_call.check ex_two ex_vec5 ex_cntl_opt] } :=
  (scalv_int_null_cell scalv_run_ref true scalv_chk_accept ex_two ex_vec5 ex_cntl_opt
    (by decide) (by decide) (by decide) (Or.inr rfl) (by decide)
    (Or.inl (by decide))).2.1

/-! ## Parameter checking in the object front ends -/

/-- C7: for the object front ends `bli_scalv_int` and `bli_abmaxv`: when error
checking is enabled and the check routine rejects the arguments with an error
code, the front end ends in the report of that code and does not execute: its
only call is the check, no variant is invoked, and the operands are as
received. When error checking is disabled the check routine is not called at
all: the call log holds no check and the outcome is the same whatever the
check routine would have answered. -/
theorem front_end_check_gate
    (run : scalv_fp → obj_t → obj_t → obj_t × obj_t)
    (var : obj_t → obj_t → obj_t × obj_t)
    (chk_s chk_s2 : obj_t → obj_t → scalv_t → Option err_t)
    (chk_a chk_a2 : obj_t → obj_t → Option err_t)
    (beta x : obj_t) (cntl : scalv_t) (ax abmax_i : obj_t) (e1 e2 : err_t)
    (h1 : chk_s beta x cntl = some e1) (h2 : chk_a ax abmax_i = some e2) :
    (bli_scalv_int run true chk_s beta x cntl =
        .aborted e1 { beta := beta, x := x, calls := [scalv_call.check beta x cntl] } ∧
      (bli_scalv_int run true chk_s beta x cntl).state.variant_count = 0) ∧
    (bli_abmaxv var true chk_a ax abmax_i =
        .aborted e2 { x := ax, abmax_i := abmax_i,
                      calls := [abmaxv_call.check ax abmax_i] } ∧
      (bli_abmaxv var true chk_a ax abmax_i).state.variant_count = 0) ∧
    ((bli_scalv_int run false chk_s beta x cntl).state.calls.filter
        scalv_call.is_check = [] ∧
      bli_scalv_int run false chk_s beta x cntl =
        bli_scalv_int run false chk_s2 beta x cntl) ∧
    ((bli_abmaxv var false chk_a ax abmax_i).state.calls.filter
        abmaxv_call.is_check = [] ∧
      bli_abmaxv var false chk_a ax abmax_i = bli_abmaxv var false chk_a2 ax abmax_i) := by
  refine ⟨⟨?_, ?_⟩, ⟨?_, ?_⟩, ⟨?_, ?_⟩, ⟨?_, ?_⟩⟩
  · simp [bli_scalv_int, h1]
  · simp [bli_scalv_int, h1, Outcome.state, scalv_state.variant_count,
      scalv_call.is_variant]
  · simp [bli_abmaxv, h2]
  · simp [bli_abmaxv, h2, Outcome.state, abmaxv_state.variant_count,
      abmaxv_call.is_variant]
  · cases hn : cntl_is_noop cntl <;> cases hz : bli_obj_has_zero_dim x <;>
      cases hb : bli_obj_equals beta BLIS_ONE <;>
      rcases hv : vars_at (cntl_var_num cntl) (cntl_impl_type cntl) with _ | _ | f <;>
      simp [bli_scalv_int, Outcome.state, scalv_call.is_check, hn, hz, hb, hv]
  · simp [bli_scalv_int]
  · simp [bli_abmaxv, Outcome.state, abmaxv_call.is_check]
  · simp [bli_abmaxv]

theorem front_end_check_gate_witness :
    scalv_chk_reject ex_two ex_vec5 ex_cntl_unb = some err_t.BLIS_FAILURE ∧
    abmaxv_chk_reject ex_vec5 ex_idx = some err_t.BLIS_FAILURE ∧
    bli_scalv_int scalv_run_ref true scalv_chk_reject ex_two ex_vec5 ex_cntl_unb =
      .aborted err_t.BLIS_FAILURE
        { beta := ex_two, x := ex_vec5,
          calls := [scalv_call.check ex_two ex_vec5 ex_cntl_unb] } ∧
    bli_abmaxv abmaxv_var_stub true abmaxv_chk_reject ex_vec5 ex_idx =
      .aborted err_t.BLIS_FAILURE
        { x := ex_vec5, abmax_i := ex_idx, calls := [abmaxv_call.check ex_vec5 ex_idx] } :=
  have h := front_end_check_gate scalv_run_ref abmaxv_var_stub scalv_chk_reject
    scalv_chk_accept abmaxv_chk_reject abmaxv_chk_reject ex_two ex_vec5 ex_cntl_unb
    ex_vec5 ex_idx err_t.BLIS_FAILURE err_t.BLIS_FAILURE rfl rfl
  ⟨rfl, rfl, h.1.1, h.2.1.1⟩

/-! ## abmaxv: zero-length operands -/

/-- C8, as stated, fails: for a zero-length vector x the object front end
`bli_abmaxv` (error checking disabled) invokes the variant once, and the typed
front end with n = 0 invokes the kernel once; neither returns without the
call. -/
theorem abmaxv_zero_length_counterexample :
    bli_obj_has_zero_dim ex_vec0 = true ∧
    (bli_abmaxv abmaxv_var_stub false abmaxv_chk_reject ex_vec0
        ex_idx).state.variant_count = 1 ∧
    (bli_abmaxv abmaxv_var_stub false abmaxv_chk_reject ex_vec0 ex_idx).state.calls =
      [abmaxv_call.variant ex_vec0 ex_idx] ∧
    (abmaxv_typed abmaxv_kern_stub 0 [] 1 7).kcalls =
      [{ n := 0, x := [], incx := 1, abmax_i := 7 }] := by
  decide

/-- C8, amended: for every vector x, zero-length ones included, the object
front end `bli_abmaxv`, when the parameter check is disabled or hands control
back, invokes the variant `abmaxv_unb_var1` exactly once with the operands it
received and returns what the variant leaves; the typed front ends, for every
n (0 included), invoke the kernel `abmaxv_unb_var1` exactly once with the
arguments they received and return what it leaves. The front ends make no
zero-dimension test and modify no operand themselves. -/
theorem abmaxv_front_ends_forward
    (var : obj_t → obj_t → obj_t × obj_t) (ec : Bool)
    (chk : obj_t → obj_t → Option err_t) (x abmax_i : obj_t)
    (kern : Int → List Int → Int → Int → List Int × Int)
    (n : Int) (tx : List Int) (incx : Int) (ti : Int)
    (hc : ec = false ∨ chk x abmax_i = none) :
    bli_abmaxv var ec chk x abmax_i =
      .returned { x := (var x abmax_i).1, abmax_i := (var x abmax_i).2,
                  calls := (if ec then [abmaxv_call.check x abmax_i] else []) ++
                    [abmaxv_call.variant x abmax_i] } ∧
    (bli_abmaxv var ec chk x abmax_i).state.variant_count = 1 ∧
    abmaxv_typed kern n tx incx ti =
      { x := (kern n tx incx ti).1, abmax_i := (kern n tx incx ti).2,
        kcalls := [{ n := n, x := tx, incx := incx, abmax_i := ti }] } := by
  have hg := scalv_check_gate_cases ec (chk x abmax_i) hc
  have hr : bli_abmaxv var ec chk x abmax_i =
      .returned { x := (var x abmax_i).1, abmax_i := (var x abmax_i).2,
                  calls := (if ec then [abmaxv_call.check x abmax_i] else []) ++
                    [abmaxv_call.variant x abmax_i] } := by
    simp only [bli_abmaxv, hg]
  refine ⟨hr, ?_, rfl⟩
  rw [hr]; cases ec <;>
    simp [Outcome.state, abmaxv_state.variant_count, abmaxv_call.is_variant]

theorem abmaxv_front_ends_forward_witness :
    bli_abmaxv abmaxv_var_stub false abmaxv_chk_reject ex_vec0 ex_idx =
      .returned { x := ex_vec0, abmax_i := ex_idx,
                  calls := [abmaxv_call.variant ex_vec0 ex_idx] } :=
  (abmaxv_front_ends_forward abmaxv_var_stub false abmaxv_chk_reject ex_vec0 ex_idx
    abmaxv_kern_stub 0 [] 1 7 (Or.inl rfl)).1

/-! ## The mixed-precision entry points -/

/-- C10: for all arguments (n, x, incx, y, incy) and whatever the memory
holds, `sdsdot` and `dsdot` compute no dot product: each signals
`BLIS_NOT_YET_IMPLEMENTED` through `bli_check_error_code` and nothing else,
its outcome is the same for any other arguments and memory contents (x and y
are not read), and if `bli_check_error_code` hands control back the function
returns exactly 0. -/
theorem sdot_entry_points_not_implemented
    (cec_returns : err_t → Bool) (mem mem2 : Int → Int)
    (n x incx y incy n2 x2 incx2 y2 incy2 : Int) :
    (sdsdot cec_returns mem n x incx y incy).state.signalled =
      [err_t.BLIS_NOT_YET_IMPLEMENTED] ∧
    (dsdot cec_returns mem n x incx y incy).state.signalled =
      [err_t.BLIS_NOT_YET_IMPLEMENTED] ∧
    sdsdot cec_returns mem n x incx y incy = sdsdot cec_returns mem2 n2 x2 incx2 y2 incy2 ∧
    dsdot cec_returns mem n x incx y incy = dsdot cec_returns mem2 n2 x2 incx2 y2 incy2 ∧
    (cec_returns err_t.BLIS_NOT_YET_IMPLEMENTED = true →
      sdsdot cec_returns mem n x incx y incy =
        .returned { rho := 0, signalled := [err_t.BLIS_NOT_YET_IMPLEMENTED] } ∧
      dsdot cec_returns mem n x incx y incy =
        .returned { rho := 0, signalled := [err_t.BLIS_NOT_YET_IMPLEMENTED] }) := by
  cases h : cec_returns err_t.BLIS_NOT_YET_IMPLEMENTED <;>
    simp [sdsdot, dsdot, Outcome.state, h]

theorem sdot_entry_points_not_implemented_witness :
    sdsdot (fun _ => true) (fun a => a + 1) 5 0 2 10 (-1) =
        .returned { rho := 0, signalled := [err_t.BLIS_NOT_YET_IMPLEMENTED] } ∧
    dsdot (fun _ => true) (fun a => a + 1) 5 0 2 10 (-1) =
        .returned { rho := 0, signalled := [err_t.BLIS_NOT_YET_IMPLEMENTED] } :=
  (sdot_entry_points_not_implemented (fun _ => true) (fun a => a + 1) (fun a => a)
    5 0 2 10 (-1) 0 0 0 0 0).2.2.2.2 rfl

/-! ## The BLAS-compatible dot routine -/

/-- C5: for every n >= 0, all x, y and all increments incx, incy of either
sign, the routine generated by `GENTFUNCDOT` returns, over exact arithmetic,
the sum over i < n of conj?(X_i) * Y_i, where logical element i of an operand
with increment inc >= 0 lies at offset i*inc from the pointer passed by the
caller and with inc < 0 at offset (n-1-i)*|inc| (`dot_spec`); consequently a
call returns the same dot product as the same call with both increments
negated, in particular when both are negative. -/
theorem bla_dot_blas_semantics {R : Type} [Semiring R] (cj : R → R)
    (blis_conjx lib_up : Bool) (mem : Int → R) (n x incx y incy : Int) (hn : 0 ≤ n) :
    (bla_dot cj blis_conjx lib_up mem n x incx y incy).1 =
      dot_spec cj blis_conjx mem n x incx y incy ∧
    (bla_dot cj blis_conjx lib_up mem n x (-incx) y (-incy)).1 =
      (bla_dot cj blis_conjx lib_up mem n x incx y incy).1 := by
  refine ⟨bla_dot_eq_dot_spec cj blis_conjx lib_up mem n x incx y incy hn, ?_⟩
  rw [bla_dot_eq_dot_spec cj blis_conjx lib_up mem n x (-incx) y (-incy) hn,
    bla_dot_eq_dot_spec cj blis_conjx lib_up mem n x incx y incy hn]
  exact dot_spec_neg_incs cj blis_conjx mem n x incx y incy hn

theorem bla_dot_blas_semantics_witness :
    (0 : Int) ≤ 5 ∧
    (List.range 5).map (blas_offset 5 (-2)) = [8, 6, 4, 2, 0] ∧
    (List.range 5).map (blas_offset 5 2) = [0, 2, 4, 6, 8] ∧
    (bla_dot id false false ex_mem 5 0 (-2) 100 (-2)).1 =
      dot_spec id false ex_mem 5 0 (-2) 100 (-2) ∧
    (bla_dot id false false ex_mem 5 0 (-2) 100 (-2)).1 =
      (bla_dot id false false ex_mem 5 0 2 100 2).1 :=
  ⟨by decide, by decide, by decide,
   (bla_dot_blas_semantics id false false ex_mem 5 0 (-2) 100 (-2) (by decide)).1,
   (bla_dot_blas_semantics id false false ex_mem 5 0 2 100 2 (by decide)).2⟩

/-- C6: for every n < 0 and all x, incx, y, incy, the routine generated by
`GENTFUNCDOT` treats the length as zero: the length it passes to the BLIS dot
operation is 0 (all arguments passed are those of the call with n = 0), the
returned value is the same whatever the memory holds (no element of x or y is
read), and it equals the value returned by the same call with n = 0, which is
the empty dot product, zero. -/
theorem bla_dot_negative_length {R : Type} [Zero R] [Add R] [Mul R] (cj : R → R)
    (blis_conjx lib_up : Bool) (mem mem2 : Int → R) (n x incx y incy : Int)
    (hn : n < 0) :
    (bla_dot_args n x incx y incy).n0 = 0 ∧
    bla_dot_args n x incx y incy = bla_dot_args 0 x incx y incy ∧
    (bla_dot cj blis_conjx lib_up mem n x incx y incy).1 =
      (bla_dot cj blis_conjx lib_up mem2 n x incx y incy).1 ∧
    bla_dot cj blis_conjx lib_up mem n x incx y incy =
      bla_dot cj blis_conjx lib_up mem 0 x incx y incy ∧
    (bla_dot cj blis_conjx lib_up mem n x incx y incy).1 = 0 := by
  have hn0 : bli_convert_blas_dim1 n = 0 := by
    unfold bli_convert_blas_dim1; simp [hn]
  have h0 : bli_convert_blas_dim1 0 = 0 := by
    unfold bli_convert_blas_dim1; simp
  refine ⟨?_, ?_, ?_, ?_, ?_⟩ <;>
    simp [bla_dot, bla_dot_args, bli_dotv, dotv_loop, hn0, h0]

theorem bla_dot_negative_length_witness :
    (-3 : Int) < 0 ∧
    (bla_dot_args (-3) 0 (-2) 100 1).n0 = 0 ∧
    (bla_dot id false false ex_mem (-3) 0 (-2) 100 1).1 = 0 ∧
    (bla_dot id false false ex_mem 0 0 (-2) 100 1).1 = 0 :=
  have h := bla_dot_negative_length id false false ex_mem ex_mem (-3) 0 (-2) 100 1
    (by decide)
  ⟨by decide, h.1, h.2.2.2.2, by decide⟩

end Blis
